import Mathlib

/-!
Verification of the batch feedback-analysis pipeline of the car-rental
review analyzer (src/app.py).

The external inference service is modelled as an oracle
`gen : String → Except AppError String` (prompt in, completion or failure
out).  Streamlit widget updates (progress bar, status text) and the
`time.sleep(0.5)` pacing delay are modelled as an explicit event trace.
Python `str.format`, `str.strip`, `str.lower` and the latin-1 `replace`
encoding are embedded directly.  DataFrame column access
(`results_df[col]`) raises `KeyError` when the frame was built from an
empty record list, because `pd.DataFrame([])` has no columns; this is
modelled in `getColumn`.
-/

set_option maxRecDepth 100000

/-- Errors of the app.  Python unifies all of these under `Exception`,
which the batch page catches in one `except Exception` handler. -/
inductive AppError where
  | templateError (msg : String)
  | inferenceError (msg : String)
  | keyError (key : String)
deriving Repr, DecidableEq

/-- The inference-service handle: `model.generate_text(prompt=p)`,
which either returns the completion text or raises. -/
abbrev GenText := String → Except AppError String

/-- Python `str.isspace` characters relevant to `str.strip()`
(ASCII whitespace). -/
def pyIsSpace (c : Char) : Bool :=
  c = ' ' || c = '\t' || c = '\n' || c = '\x0b' || c = '\x0c' || c = '\r'

/-- Python `s.strip()`: remove leading and trailing whitespace. -/
def pyStrip (s : String) : String :=
  String.mk (((s.data.dropWhile pyIsSpace).reverse.dropWhile pyIsSpace).reverse)

/-- Python `s.lower()` (ASCII case folding). -/
def pyLower (s : String) : String :=
  String.mk (s.data.map Char.toLower)

/-- Helper for `str.format`: scan a replacement field up to the closing
brace; returns the field name and the remaining text, or none if the
string ends before a closing brace. -/
def splitField : List Char → Option (List Char × List Char)
  | [] => none
  | c :: rest =>
    if c = '\x7d' then some ([], rest)
    else (splitField rest).map (fun p => (c :: p.1, p.2))

/-- Python `template.format(key=value)` restricted to one keyword
argument, on the explicit character list.  Doubled braces are literal
braces; a replacement field whose name is not `key` raises `KeyError`
(modelled as `.error name`); stray single braces raise `ValueError`.
A template with no replacement field at all succeeds and is returned
unchanged.  The `Nat` argument is recursion fuel; `template.length + 1`
always suffices since every step consumes at least one character. -/
def pyFmtAux (key value : String) : Nat → List Char → Except String (List Char)
  | 0, _ => .error "out of fuel"
  | _ + 1, [] => .ok []
  | fuel + 1, c :: rest =>
    if c = '\x7b' then
      match rest with
      | d :: rest2 =>
        if d = '\x7b' then (pyFmtAux key value fuel rest2).map (fun l => c :: l)
        else
          match splitField (d :: rest2) with
          | none => .error "expected closing brace before end of string"
          | some (name, rest3) =>
            if String.mk name = key then
              (pyFmtAux key value fuel rest3).map (fun l => value.data ++ l)
            else .error (String.mk name)
      | [] => .error "Single opening brace encountered in format string"
    else if c = '\x7d' then
      match rest with
      | d :: rest2 =>
        if d = '\x7d' then (pyFmtAux key value fuel rest2).map (fun l => c :: l)
        else .error "Single closing brace encountered in format string"
      | [] => .error "Single closing brace encountered in format string"
    else (pyFmtAux key value fuel rest).map (fun l => c :: l)

/-- Python `template.format(key=value)` with a single keyword argument. -/
def pyFormat (template key value : String) : Except String String :=
  (pyFmtAux key value (template.data.length + 1) template.data).map String.mk

/-- The sentiment few-shot instruction template of src/app.py. -/
def sentiment_instruction : String :=
  "\nClassify the sentiment of the car rental review as Positive, Negative, or Neutral.\nReview: \x7breview_text\x7d\nSentiment:\n"

/-- The issue few-shot instruction template of src/app.py. -/
def issue_instruction : String :=
  "\nIdentify the main issue from the review. Choose from: Car Condition, Staff Interaction, Pickup/Dropoff Experience, Billing/Pricing, Booking Process, Location/Facilities, Add-ons/Extras, Other.\n\nReview: The online booking was easy but they charged me for extra insurance I didn\x27t ask for.\nTopic: Billing/Pricing\n\nReview: The agent at the counter was rude and unhelpful.\nTopic: Staff Interaction\n\nReview: The car\x27s tires were worn out and the AC was not working.\nTopic: Car Condition\n\nReview: I ordered a child seat, but it wasn\x27t in the car when I arrived.\nTopic: Add-ons/Extras\n\nReview: The pickup took over an hour, the lines were huge.\nTopic: Pickup/Dropoff Experience\n\nReview: \x7breview_text\x7d\nTopic:\n"

/-- The narrative-summary prompt template of src/app.py. -/
def summary_generation_prompt : String :=
  "\nYou are an expert operations analyst for a car rental company.\nBased on the following summary statistics from customer reviews, write a brief, professional, and actionable summary for management.\nFocus on the top 2-3 most critical areas for improvement and mention one key strength to maintain.\nUse bullet points for clarity.\n\nStatistics:\n\x7bstats_text\x7d\n\nAnalysis:\n"

/-- Text before the review placeholder in `sentiment_instruction`. -/
def sentPre : String :=
  "\nClassify the sentiment of the car rental review as Positive, Negative, or Neutral.\nReview: "

/-- Text after the review placeholder in `sentiment_instruction`. -/
def sentSuf : String := "\nSentiment:\n"

/-- Text before the review placeholder in `issue_instruction`. -/
def issuePre : String :=
  "\nIdentify the main issue from the review. Choose from: Car Condition, Staff Interaction, Pickup/Dropoff Experience, Billing/Pricing, Booking Process, Location/Facilities, Add-ons/Extras, Other.\n\nReview: The online booking was easy but they charged me for extra insurance I didn\x27t ask for.\nTopic: Billing/Pricing\n\nReview: The agent at the counter was rude and unhelpful.\nTopic: Staff Interaction\n\nReview: The car\x27s tires were worn out and the AC was not working.\nTopic: Car Condition\n\nReview: I ordered a child seat, but it wasn\x27t in the car when I arrived.\nTopic: Add-ons/Extras\n\nReview: The pickup took over an hour, the lines were huge.\nTopic: Pickup/Dropoff Experience\n\nReview: "

/-- Text after the review placeholder in `issue_instruction`. -/
def issueSuf : String := "\nTopic:\n"

/-- The full sentiment prompt sent for a given review text. -/
def prompt_sentiment (review_text : String) : String :=
  sentPre ++ review_text ++ sentSuf

/-- The full issue prompt sent for a given review text. -/
def prompt_issue (review_text : String) : String :=
  issuePre ++ review_text ++ issueSuf

/-- One analyzed review, i.e. the record appended to `results_list`
(`Review`, `Predicted_Sentiment`, `Predicted_Issue`). -/
structure ClassificationResult where
  review : String
  sentiment : String
  issue : String
deriving Repr, DecidableEq

/-- `analyze_single_review(model, review_text)` of src/app.py.  Returns
the outcome together with the list of prompts actually sent to the
inference service, in order (the effect trace of the two possible
`model.generate_text` calls). -/
def analyze_single_review (gen : GenText) (review_text : String) :
    Except AppError ClassificationResult × List String :=
  match pyFormat sentiment_instruction "review_text" review_text with
  | .error m => (.error (.templateError m), [])
  | .ok ps =>
    match gen ps with
    | .error e => (.error e, [ps])
    | .ok raw =>
      let predicted_sentiment := pyStrip raw
      if pyLower predicted_sentiment = "negative" then
        match pyFormat issue_instruction "review_text" review_text with
        | .error m => (.error (.templateError m), [ps])
        | .ok pi =>
          match gen pi with
          | .error e => (.error e, [ps, pi])
          | .ok rawIssue =>
            (.ok ⟨review_text, predicted_sentiment, pyStrip rawIssue⟩, [ps, pi])
      else
        (.ok ⟨review_text, predicted_sentiment, "N/A"⟩, [ps])

/-- Observable events of the batch loop: inference calls, the
`time.sleep(0.5)` pacing delay, and the progress updates
(`progress_bar.progress((index+1)/len(df))` together with
`status_text.text` showing `index+1` of `len(df)`). -/
inductive Event where
  | genCall (prompt : String)
  | sleep (seconds : ℚ)
  | progress (completed total : Nat)
deriving Repr, DecidableEq

/-- The batch loop of src/app.py (`for index, row in df.iterrows()`):
classify each review, accumulate the record, sleep 0.5 s, update the
progress indicators.  An exception from `analyze_single_review`
propagates and aborts the loop; the accumulated `results_list` is
discarded.  The second component is the event trace of whatever ran
before returning. -/
def batchLoop (gen : GenText) (total : Nat) :
    Nat → List String → Except AppError (List ClassificationResult) × List Event
  | _, [] => (.ok [], [])
  | index, review :: rest =>
    match analyze_single_review gen review with
    | (.error e, prompts) => (.error e, prompts.map Event.genCall)
    | (.ok cr, prompts) =>
      let next := batchLoop gen total (index + 1) rest
      (next.1.map (fun rs => cr :: rs),
       prompts.map Event.genCall
         ++ Event.sleep (1 / 2) :: Event.progress (index + 1) total :: next.2)

/-- The batch loop as invoked from the page: index starts at 0 and the
progress denominator is `len(df)`. -/
def batchRun (gen : GenText) (reviews : List String) :
    Except AppError (List ClassificationResult) × List Event :=
  batchLoop gen reviews.length 0 reviews

/-- The batch loop with the progress indicator abstracted as a callback
transforming an arbitrary observer state (the widget state).  Used to
state that the progress reporting has no effect on the computed
results. -/
def batchLoopCb {σ : Type} (gen : GenText) (cb : Nat → Nat → σ → σ) (total : Nat) :
    Nat → σ → List String → Except AppError (List ClassificationResult) × σ
  | _, s, [] => (.ok [], s)
  | index, s, review :: rest =>
    match analyze_single_review gen review with
    | (.error e, _) => (.error e, s)
    | (.ok cr, _) =>
      let next := batchLoopCb gen cb total (index + 1) (cb (index + 1) total s) rest
      (next.1.map (fun rs => cr :: rs), next.2)

/-- numpy round-half-to-even of a rational to an integer
(the rounding used by `pandas.Series.round`). -/
def roundHalfEven (q : ℚ) : ℤ :=
  if q - ⌊q⌋ < 1 / 2 then ⌊q⌋
  else if 1 / 2 < q - ⌊q⌋ then ⌊q⌋ + 1
  else if 2 ∣ ⌊q⌋ then ⌊q⌋ else ⌊q⌋ + 1

/-- `Series.round(1)`: round to one decimal place. -/
def round1 (q : ℚ) : ℚ :=
  (roundHalfEven (q * 10) : ℚ) / 10

/-- `col.value_counts(normalize=True).mul(100).round(1).to_dict()`:
for each distinct value of the column, its share of the column as a
percentage rounded to one decimal place.  The dictionary is modelled as
an association list over the distinct values (`value_counts` orders by
descending count, which is irrelevant to the mapping). -/
def valueCountsPct (xs : List String) : List (String × ℚ) :=
  xs.dedup.map fun l => (l, round1 ((xs.count l : ℚ) / (xs.length : ℚ) * 100))

/-- `col.value_counts()` (raw counts), used for the report charts. -/
def value_counts (xs : List String) : List (String × Nat) :=
  xs.dedup.map fun l => (l, xs.count l)

/-- Column access `results_df[col]` on the DataFrame built by
`pd.DataFrame(results_list)`.  The columns are the dictionary keys
`Review`, `Predicted_Sentiment`, `Predicted_Issue` — but only when
`results_list` is non-empty: `pd.DataFrame([])` has no columns, so any
column access on it raises `KeyError(col)`. -/
def getColumn (rows : List ClassificationResult) (col : String) :
    Except AppError (List String) :=
  if rows = [] then .error (.keyError col)
  else if col = "Review" then .ok (rows.map (fun r => r.review))
  else if col = "Predicted_Sentiment" then .ok (rows.map (fun r => r.sentiment))
  else if col = "Predicted_Issue" then .ok (rows.map (fun r => r.issue))
  else .error (.keyError col)

/-- Line 194 of src/app.py:
`results_df[\x27Predicted_Sentiment\x27].value_counts(normalize=True).mul(100).round(1).to_dict()`. -/
def sentiment_counts (rows : List ClassificationResult) :
    Except AppError (List (String × ℚ)) :=
  (getColumn rows "Predicted_Sentiment").map valueCountsPct

/-- Line 195 of src/app.py: filter the frame to `Predicted_Sentiment ==
\x27Negative\x27` (the boolean mask reads the sentiment column, hence the
same `KeyError` on an empty frame), then `value_counts` over the
`Predicted_Issue` column of the filtered frame.  A filtered frame keeps
its columns even when no row matches, so no further `KeyError` can
occur, and `value_counts` of an empty column is the empty mapping. -/
def negative_issue_counts (rows : List ClassificationResult) :
    Except AppError (List (String × ℚ)) :=
  (getColumn rows "Predicted_Sentiment").map fun _ =>
    valueCountsPct ((rows.filter fun r => r.sentiment == "Negative").map (fun r => r.issue))

/-- The aggregation stage (lines 194-195): both distributions.  A pure
function of the result set; the inference service is not consulted. -/
def aggregate (rows : List ClassificationResult) :
    Except AppError (List (String × ℚ)) × Except AppError (List (String × ℚ)) :=
  (sentiment_counts rows, negative_issue_counts rows)

/-- Python `repr` of a float that carries one decimal digit (the values
produced by `round(1)`), as rendered inside the f-string statistics
block. -/
def pyFloatRepr1 (q : ℚ) : String :=
  toString (⌊q * 10⌋ / 10) ++ "." ++ toString (⌊q * 10⌋ % 10)

/-- Python `str` of the percentage dictionaries inside the f-string. -/
def pyDictRepr (m : List (String × ℚ)) : String :=
  "\x7b" ++ String.intercalate ", "
    (m.map fun kv => "\x27" ++ kv.1 ++ "\x27: " ++ pyFloatRepr1 kv.2) ++ "\x7d"

/-- The f-string `stats` block (lines 196-198); an empty negative-issue
dictionary is rendered as `None`. -/
def stats_block (n : Nat) (sc ic : List (String × ℚ)) : String :=
  "- Total Reviews: " ++ toString n
    ++ "\n- Sentiment Distribution: " ++ pyDictRepr sc
    ++ "\n- Breakdown of Negative Issues: "
    ++ (if ic.isEmpty then "None" else pyDictRepr ic)

/-- `s.encode(\x27latin-1\x27, \x27replace\x27).decode(\x27latin-1\x27)`:
characters above U+00FF are replaced by a question mark. -/
def latin1Replace (s : String) : String :=
  String.mk (s.data.map fun c => if c.toNat ≤ 255 then c else '?')

/-- The PDF report document of `create_pdf_report`, abstracted from the
byte-level rendering: header title, metadata block, the data series of
the two charts, the no-negative-reviews note, and the narrative
insights section. -/
structure Report where
  title : String
  summaryText : String
  sentimentChart : List (String × Nat)
  negativeIssuesChart : Option (List (String × Nat))
  noNegativesNote : Option String
  insights : String
deriving Repr, DecidableEq

/-- `create_pdf_report(df_results, summary_text)` of src/app.py, with
the generation date passed explicitly (`pd.Timestamp.now()`), producing
the abstract document.  The sentiment pie chart reads the
`Predicted_Sentiment` column, so an empty frame raises `KeyError`
here as well. -/
def create_pdf_report (df_results : List ClassificationResult)
    (summary_text today : String) : Except AppError Report :=
  match getColumn df_results "Predicted_Sentiment" with
  | .error e => .error e
  | .ok sentCol =>
    let negative_reviews := df_results.filter fun r => r.sentiment == "Negative"
    if negative_reviews.isEmpty then
      .ok ⟨"Car Rental Feedback Analysis Report",
           "Total reviews analyzed: " ++ toString df_results.length
             ++ "\nReport generated on: " ++ today,
           value_counts sentCol,
           none,
           some "No negative reviews were found in this batch.",
           latin1Replace summary_text⟩
    else
      .ok ⟨"Car Rental Feedback Analysis Report",
           "Total reviews analyzed: " ++ toString df_results.length
             ++ "\nReport generated on: " ++ today,
           value_counts sentCol,
           some (value_counts (negative_reviews.map (fun r => r.issue))),
           none,
           latin1Replace summary_text⟩

/-- Everything the batch page produces on success: the results table,
the loop event trace, both distributions, and the PDF report. -/
structure BatchOutput where
  results : List ClassificationResult
  events : List Event
  sentimentDist : List (String × ℚ)
  issueDist : List (String × ℚ)
  report : Report

/-- The batch branch of src/app.py after the Start button (lines
176-203): run the loop, build the DataFrame, compute both
distributions, format the statistics into the summary prompt, request
the narrative text, and render the PDF.  Any exception anywhere
propagates (to the `except Exception` handler of the page). -/
def batchPipeline (gen : GenText) (today : String) (reviews : List String) :
    Except AppError BatchOutput :=
  match batchRun gen reviews with
  | (.error e, _) => .error e
  | (.ok results, events) =>
    match sentiment_counts results with
    | .error e => .error e
    | .ok sc =>
      match negative_issue_counts results with
      | .error e => .error e
      | .ok ic =>
        match pyFormat summary_generation_prompt "stats_text"
            (stats_block results.length sc ic) with
        | .error m => .error (.templateError m)
        | .ok summary_prompt =>
          match gen summary_prompt with
          | .error e => .error e
          | .ok ai_summary_text =>
            match create_pdf_report results ai_summary_text today with
            | .error e => .error e
            | .ok report => .ok ⟨results, events, sc, ic, report⟩

/-- The `except Exception` handler around the batch page (lines
168-214): on any exception an error message is displayed and nothing is
produced; no partial results escape. -/
def batchHandler (gen : GenText) (today : String) (reviews : List String) :
    Option BatchOutput :=
  (batchPipeline gen today reviews).toOption

/-- `initialize_model()` of src/app.py: the attempt to construct the
`Model` (credential lookup included) either yields a handle or raises;
the `except` branch displays the error and returns `None`. -/
def initialize_model (attempt : Except String GenText) : Option GenText :=
  match attempt with
  | .ok m => some m
  | .error _ => none

/-- The Interactive Analysis button (line 155):
`if review_input.strip() and model:` — nothing at all happens unless the
stripped input is non-empty and the model handle is not `None`. -/
def interactiveAnalysis (model : Option GenText) (review_input : String) :
    Option (Except AppError ClassificationResult × List String) :=
  if pyStrip review_input ≠ "" then
    match model with
    | some gen => some (analyze_single_review gen review_input)
    | none => none
  else none

/-- The Start Batch Analysis guard (line 175): `if model:` — with a
`None` model the whole batch branch is skipped silently. -/
def batchSection (model : Option GenText) (today : String) (reviews : List String) :
    Option (Except AppError BatchOutput) :=
  match model with
  | some gen => some (batchPipeline gen today reviews)
  | none => none

/-- Event classifiers for trace statements. -/
def isSleep : Event → Bool
  | .sleep _ => true
  | _ => false

/-- Recognizes progress events in the trace. -/
def isProgress : Event → Bool
  | .progress _ _ => true
  | _ => false

/-- Oracle for witnesses: every completion is Positive. -/
def genPos : GenText := fun _ => .ok "Positive"

/-- Oracle for witnesses: the sentiment of review text r3 fails with an
inference error; everything else is Positive. -/
def genFail : GenText := fun p =>
  if p = prompt_sentiment "r3" then .error (.inferenceError "boom")
  else .ok "Positive"

/-- Oracle for witnesses: one negative review with one issue query. -/
def genNeg : GenText := fun p =>
  if p = prompt_sentiment "late pickup" then .ok " Negative "
  else .ok " Car Condition "

/-- One step of `pyFmtAux` on a character that is not a brace. -/
theorem pyFmtAux_cons_other (key value : String) (fuel : Nat) (c : Char)
    (rest : List Char) (h1 : c ≠ '\x7b') (h2 : c ≠ '\x7d') :
    pyFmtAux key value (fuel + 1) (c :: rest)
      = (pyFmtAux key value fuel rest).map (fun l => c :: l) := by
  conv_lhs => rw [pyFmtAux.eq_def]
  simp only [if_neg h1, if_neg h2]

/-- Characters free of braces pass through `str.format` unchanged. -/
theorem pyFmtAux_append (key value : String) (l : List Char) :
    (∀ c ∈ l, c ≠ '\x7b' ∧ c ≠ '\x7d') →
    ∀ (fuel : Nat) (rest : List Char),
      pyFmtAux key value (l.length + fuel) (l ++ rest)
        = (pyFmtAux key value fuel rest).map (fun t => l ++ t) := by
  induction l with
  | nil =>
    intro _ fuel rest
    simp only [List.length_nil, Nat.zero_add, List.nil_append]
    cases pyFmtAux key value fuel rest <;> rfl
  | cons c l ih =>
    intro h fuel rest
    obtain ⟨hc1, hc2⟩ := h c (List.mem_cons_self c l)
    have h' : ∀ x ∈ l, x ≠ '\x7b' ∧ x ≠ '\x7d' := fun x hx =>
      h x (List.mem_cons_of_mem c hx)
    have harith : (c :: l).length + fuel = (l.length + fuel) + 1 := by
      simp only [List.length_cons]; omega
    rw [harith, List.cons_append]
    rw [pyFmtAux_cons_other key value _ c _ hc1 hc2, ih h' fuel rest]
    cases pyFmtAux key value fuel rest <;> rfl

/-- `splitField` recovers a brace-free field name followed by the
closing brace. -/
theorem splitField_append (name : List Char) (h : '\x7d' ∉ name)
    (rest : List Char) :
    splitField (name ++ '\x7d' :: rest) = some (name, rest) := by
  induction name with
  | nil => simp [splitField]
  | cons c name ih =>
    have hc : c ≠ '\x7d' := fun e => h (e ▸ List.mem_cons_self c name)
    have h' : '\x7d' ∉ name := fun hx => h (List.mem_cons_of_mem c hx)
    simp [splitField, hc, ih h']

/-- A well-formed replacement field named `key` is substituted by the
value. -/
theorem pyFmtAux_placeholder (key value : String) (fuel : Nat)
    (rest : List Char) (h1 : key.data ≠ []) (h2 : '\x7b' ∉ key.data)
    (h3 : '\x7d' ∉ key.data) :
    pyFmtAux key value (fuel + 1) ('\x7b' :: (key.data ++ '\x7d' :: rest))
      = (pyFmtAux key value fuel rest).map (fun t => value.data ++ t) := by
  obtain ⟨d, ds, hds⟩ : ∃ d ds, key.data = d :: ds := by
    cases hk : key.data with
    | nil => exact absurd hk h1
    | cons d ds => exact ⟨d, ds, rfl⟩
  have hd : d ≠ '\x7b' := by
    intro e
    exact h2 (e ▸ (hds ▸ List.mem_cons_self d ds))
  have hsplit : splitField (d :: (ds ++ '\x7d' :: rest)) = some (d :: ds, rest) := by
    rw [← List.cons_append]
    exact splitField_append (d :: ds) (hds ▸ h3) rest
  have hmk : String.mk (d :: ds) = key := by
    rw [← hds]
  conv_lhs => rw [pyFmtAux.eq_def]
  rw [hds]
  simp only [List.cons_append, hsplit, hmk]
  simp [hd]

/-- A brace-free text is accepted whole (given at least one unit of
spare fuel). -/
theorem pyFmtAux_noBrace (key value : String) (l : List Char)
    (h : ∀ c ∈ l, c ≠ '\x7b' ∧ c ≠ '\x7d') (fuel : Nat) :
    pyFmtAux key value (l.length + (fuel + 1)) l = .ok l := by
  have happ := pyFmtAux_append key value l h (fuel + 1) []
  rw [List.append_nil] at happ
  rw [happ]
  have hnil : pyFmtAux key value (fuel + 1) [] = .ok [] := by
    conv_lhs => rw [pyFmtAux.eq_def]
  rw [hnil]
  simp [Except.map]

/-- `str.format` on a template that consists of brace-free text around
a single replacement field named `key`: the field is replaced by the
value, verbatim. -/
theorem pyFormat_substitutes (key value : String) (pre suf : List Char)
    (hpre : ∀ c ∈ pre, c ≠ '\x7b' ∧ c ≠ '\x7d')
    (hsuf : ∀ c ∈ suf, c ≠ '\x7b' ∧ c ≠ '\x7d')
    (h1 : key.data ≠ []) (h2 : '\x7b' ∉ key.data) (h3 : '\x7d' ∉ key.data) :
    pyFormat (String.mk (pre ++ '\x7b' :: (key.data ++ '\x7d' :: suf))) key value
      = .ok (String.mk (pre ++ value.data ++ suf)) := by
  unfold pyFormat
  have hlen : (String.mk (pre ++ '\x7b' :: (key.data ++ '\x7d' :: suf))).data.length + 1
      = pre.length + (((key.data.length + (suf.length + (0 + 1))) + 1) + 1) := by
    simp only [String.data]
    simp [List.length_append, List.length_cons]
    omega
  rw [hlen]
  have hdata : (String.mk (pre ++ '\x7b' :: (key.data ++ '\x7d' :: suf))).data
      = pre ++ '\x7b' :: (key.data ++ '\x7d' :: suf) := rfl
  rw [hdata]
  rw [pyFmtAux_append key value pre hpre _ _]
  rw [pyFmtAux_placeholder key value _ suf h1 h2 h3]
  have hsufeq : key.data.length + (suf.length + (0 + 1)) + 1
      = suf.length + ((key.data.length + 1) + 1) := by omega
  rw [hsufeq]
  rw [pyFmtAux_noBrace key value suf hsuf (key.data.length + 1)]
  simp [Except.map, List.append_assoc]

/-- `str.format` on a brace-free template (no replacement field at
all): no exception, the template is returned unchanged. -/
theorem pyFormat_noPlaceholder (t key value : String)
    (h : ∀ c ∈ t.data, c ≠ '\x7b' ∧ c ≠ '\x7d') :
    pyFormat t key value = .ok t := by
  unfold pyFormat
  have hlen : t.data.length + 1 = t.data.length + (0 + 1) := by omega
  rw [hlen, pyFmtAux_noBrace key value t.data h 0]
  rfl

/-- Formatting the sentiment template inserts the review text between
the fixed prefix and suffix. -/
theorem format_sentiment (v : String) :
    pyFormat sentiment_instruction "review_text" v = .ok (prompt_sentiment v) := by
  have h := pyFormat_substitutes "review_text" v sentPre.data sentSuf.data
    (by decide) (by decide) (by decide) (by decide) (by decide)
  exact h

/-- Formatting the issue template inserts the review text between the
fixed prefix and suffix. -/
theorem format_issue (v : String) :
    pyFormat issue_instruction "review_text" v = .ok (prompt_issue v) := by
  have h := pyFormat_substitutes "review_text" v issuePre.data issueSuf.data
    (by decide) (by decide) (by decide) (by decide) (by decide)
  exact h

/-- Characterization of a successful classification: exactly one
sentiment call, whitespace trimmed; the issue call happens exactly when
the trimmed sentiment compares case-insensitively equal to Negative,
and otherwise the issue is the sentinel. -/
theorem analyze_spec (gen : GenText) (r raw : String)
    (hg : gen (prompt_sentiment r) = .ok raw) :
    (pyLower (pyStrip raw) ≠ "negative" →
      analyze_single_review gen r
        = (.ok ⟨r, pyStrip raw, "N/A"⟩, [prompt_sentiment r]))
    ∧ (∀ rawIssue, pyLower (pyStrip raw) = "negative" →
        gen (prompt_issue r) = .ok rawIssue →
        analyze_single_review gen r
          = (.ok ⟨r, pyStrip raw, pyStrip rawIssue⟩,
             [prompt_sentiment r, prompt_issue r])) := by
  constructor
  · intro hneg
    unfold analyze_single_review
    simp only [format_sentiment, hg]
    simp [hneg]
  · intro rawIssue hneg hg2
    unfold analyze_single_review
    simp only [format_sentiment, format_issue, hg, hg2]
    simp [hneg]

/-- The two fixed templates always format successfully, so
`analyze_single_review` is determined by the oracle answers on the two
prompts. -/
theorem analyze_cases (gen : GenText) (r : String) :
    analyze_single_review gen r
      = match gen (prompt_sentiment r) with
        | .error e => (.error e, [prompt_sentiment r])
        | .ok raw =>
          if pyLower (pyStrip raw) = "negative" then
            match gen (prompt_issue r) with
            | .error e => (.error e, [prompt_sentiment r, prompt_issue r])
            | .ok rawIssue =>
              (.ok ⟨r, pyStrip raw, pyStrip rawIssue⟩,
               [prompt_sentiment r, prompt_issue r])
          else (.ok ⟨r, pyStrip raw, "N/A"⟩, [prompt_sentiment r]) := by
  unfold analyze_single_review
  simp only [format_sentiment, format_issue]

/-- A successful classification reports the review it was given. -/
theorem analyze_ok_review (gen : GenText) (r : String)
    (cr : ClassificationResult)
    (h : (analyze_single_review gen r).1 = .ok cr) : cr.review = r := by
  rw [analyze_cases] at h
  rcases hg : gen (prompt_sentiment r) with e | raw <;> simp only [hg] at h
  · exact absurd h (by simp)
  · by_cases hneg : pyLower (pyStrip raw) = "negative"
    · simp only [if_pos hneg] at h
      rcases hg2 : gen (prompt_issue r) with e2 | ri <;> simp only [hg2] at h
      · exact absurd h (by simp)
      · simp only [Except.ok.injEq] at h
        rw [← h]
    · simp only [if_neg hneg] at h
      simp only [Except.ok.injEq] at h
      rw [← h]

/-- Inference-call events are neither sleeps nor progress updates. -/
theorem filter_genCall_isSleep (ps : List String) :
    (ps.map Event.genCall).filter isSleep = [] := by
  induction ps with
  | nil => rfl
  | cons p ps ih => simp [isSleep, ih]

/-- Inference-call events are not progress updates. -/
theorem filter_genCall_isProgress (ps : List String) :
    (ps.map Event.genCall).filter isProgress = [] := by
  induction ps with
  | nil => rfl
  | cons p ps ih => simp [isProgress, ih]

/-- Successful batch loop: one result per review, in input order, each
being the classification of the corresponding review. -/
theorem batchLoop_ok_spec (gen : GenText) (total : Nat) :
    ∀ (reviews : List String) (index : Nat)
      (results : List ClassificationResult),
      (batchLoop gen total index reviews).1 = .ok results →
      results.length = reviews.length
      ∧ results.map (fun r => r.review) = reviews
      ∧ ∀ (j : Nat) (hj : j < reviews.length) (hj2 : j < results.length),
          (analyze_single_review gen (reviews.get ⟨j, hj⟩)).1
            = .ok (results.get ⟨j, hj2⟩) := by
  intro reviews
  induction reviews with
  | nil =>
    intro index results h
    simp only [batchLoop] at h
    injection h with h
    subst h
    refine ⟨rfl, rfl, ?_⟩
    intro j hj
    exact absurd hj (by simp)
  | cons review rest ih =>
    intro index results h
    rcases ha : analyze_single_review gen review with ⟨res, prompts⟩
    rcases res with e | cr
    · simp only [batchLoop, ha] at h
      exact absurd h (by simp)
    · simp only [batchLoop, ha] at h
      rcases hb : (batchLoop gen total (index + 1) rest).1 with e2 | rs
      · rw [hb] at h
        exact absurd h (by simp [Except.map])
      · rw [hb] at h
        simp only [Except.map, Except.ok.injEq] at h
        subst h
        obtain ⟨ihl, ihm, ihg⟩ := ih (index + 1) rs hb
        have hcr : (analyze_single_review gen review).1 = .ok cr := by
          rw [ha]
        refine ⟨by simp [ihl], ?_, ?_⟩
        · simp only [List.map_cons, ihm, analyze_ok_review gen review cr hcr]
        · intro j hj hj2
          cases j with
          | zero => exact hcr
          | succ n =>
            exact ihg n (Nat.lt_of_succ_lt_succ hj) (Nat.lt_of_succ_lt_succ hj2)

/-- Successful batch loop: the trace contains one fixed 0.5-unit sleep
per item and one progress update per item carrying the completed count
and the total. -/
theorem batchLoop_events_spec (gen : GenText) (total : Nat) :
    ∀ (reviews : List String) (index : Nat)
      (results : List ClassificationResult),
      (batchLoop gen total index reviews).1 = .ok results →
      (batchLoop gen total index reviews).2.filter isSleep
          = List.replicate reviews.length (Event.sleep (1 / 2))
      ∧ (batchLoop gen total index reviews).2.filter isProgress
          = (List.range reviews.length).map
              (fun j => Event.progress (index + j + 1) total) := by
  intro reviews
  induction reviews with
  | nil =>
    intro index results _
    exact ⟨rfl, rfl⟩
  | cons review rest ih =>
    intro index results h
    rcases ha : analyze_single_review gen review with ⟨res, prompts⟩
    rcases res with e | cr
    · simp only [batchLoop, ha] at h
      exact absurd h (by simp)
    · simp only [batchLoop, ha] at h
      rcases hb : (batchLoop gen total (index + 1) rest).1 with e2 | rs
      · rw [hb] at h
        exact absurd h (by simp [Except.map])
      · obtain ⟨ihs, ihp⟩ := ih (index + 1) rs hb
        constructor
        · simp only [batchLoop, ha, List.filter_append, filter_genCall_isSleep,
            List.filter_cons, List.nil_append]
          simp only [isSleep, isProgress] at *
          simp [ihs, List.replicate_succ]
        · have hfilter : (batchLoop gen total index (review :: rest)).2.filter isProgress
              = Event.progress (index + 1) total
                  :: (batchLoop gen total (index + 1) rest).2.filter isProgress := by
            simp only [batchLoop, ha, List.filter_append, filter_genCall_isProgress,
              List.nil_append]
            simp [isProgress, isSleep]
          rw [hfilter, ihp]
          simp only [List.length_cons, List.range_succ_eq_map, List.map_cons,
            List.map_map, List.cons.injEq]
          refine ⟨by simp, ?_⟩
          apply List.map_congr_left
          intro a _
          simp only [Function.comp_apply]
          congr 1
          omega

/-- Every sleep event the loop ever emits — whether or not the loop
later aborts — has the fixed duration 0.5. -/
theorem batchLoop_sleep_mem (gen : GenText) (total : Nat) :
    ∀ (reviews : List String) (index : Nat) (q : ℚ),
      Event.sleep q ∈ (batchLoop gen total index reviews).2 → q = 1 / 2 := by
  intro reviews
  induction reviews with
  | nil =>
    intro index q h
    simp [batchLoop] at h
  | cons review rest ih =>
    intro index q h
    rcases ha : analyze_single_review gen review with ⟨res, prompts⟩
    rcases res with e | cr
    · simp only [batchLoop, ha] at h
      rcases List.mem_map.1 h with ⟨p, _, hp⟩
      exact Event.noConfusion hp
    · simp only [batchLoop, ha] at h
      rw [List.mem_append] at h
      rcases h with h | h
      · rcases List.mem_map.1 h with ⟨p, _, hp⟩
        exact Event.noConfusion hp
      · rw [List.mem_cons] at h
        rcases h with h | h
        · injection h
        · rw [List.mem_cons] at h
          rcases h with h | h
          · exact Event.noConfusion h
          · exact ih (index + 1) q h

/-- The computed results do not depend on the progress callback or on
its state. -/
theorem batchLoopCb_fst {σ : Type} (gen : GenText) (cb : Nat → Nat → σ → σ)
    (total : Nat) :
    ∀ (reviews : List String) (index : Nat) (s : σ),
      (batchLoopCb gen cb total index s reviews).1
        = (batchLoop gen total index reviews).1 := by
  intro reviews
  induction reviews with
  | nil => intro index s; rfl
  | cons review rest ih =>
    intro index s
    rcases ha : analyze_single_review gen review with ⟨res, prompts⟩
    rcases res with e | cr
    · simp only [batchLoopCb, batchLoop, ha]
    · simp only [batchLoopCb, batchLoop, ha]
      rw [ih (index + 1) (cb (index + 1) total s)]

/-- If every review before position k classifies successfully and the
review at position k fails, the loop propagates exactly that failure. -/
theorem batchLoop_fail_spec (gen : GenText) (total : Nat) :
    ∀ (reviews : List String) (k : Nat) (index : Nat) (e : AppError)
      (hk : k < reviews.length),
      (∀ (j : Nat) (hj : j < k), ∃ cr,
        (analyze_single_review gen
          (reviews.get ⟨j, Nat.lt_trans hj hk⟩)).1 = .ok cr) →
      (analyze_single_review gen (reviews.get ⟨k, hk⟩)).1 = .error e →
      (batchLoop gen total index reviews).1 = .error e := by
  intro reviews
  induction reviews with
  | nil =>
    intro k index e hk
    exact absurd hk (by simp)
  | cons review rest ih =>
    intro k index e hk hprev hfail
    cases k with
    | zero =>
      have hfail0 : (analyze_single_review gen review).1 = .error e := hfail
      rcases ha : analyze_single_review gen review with ⟨res, prompts⟩
      rcases res with e2 | cr
      · have he : e2 = e := by
          rw [ha] at hfail0
          injection hfail0
        subst he
        simp only [batchLoop, ha]
      · rw [ha] at hfail0
        exact absurd hfail0 (by simp)
    | succ n =>
      obtain ⟨cr0, hcr0⟩ := hprev 0 (Nat.succ_pos n)
      have hcr1 : (analyze_single_review gen review).1 = .ok cr0 := hcr0
      rcases ha : analyze_single_review gen review with ⟨res, prompts⟩
      rcases res with e2 | cr
      · rw [ha] at hcr1
        exact absurd hcr1 (by simp)
      · simp only [batchLoop, ha]
        have hfail1 : (analyze_single_review gen
            (rest.get ⟨n, Nat.lt_of_succ_lt_succ hk⟩)).1 = .error e := hfail
        have hrec := ih n (index + 1) e (Nat.lt_of_succ_lt_succ hk)
          (fun j hj => hprev (j + 1) (Nat.succ_lt_succ hj)) hfail1
        rw [hrec]
        rfl

/-- Round-half-to-even moves a value by at most one half. -/
theorem abs_roundHalfEven_sub (q : ℚ) : |(roundHalfEven q : ℚ) - q| ≤ 1 / 2 := by
  unfold roundHalfEven
  have h0 : (⌊q⌋ : ℚ) ≤ q := Int.floor_le q
  have h1 : q < ⌊q⌋ + 1 := Int.lt_floor_add_one q
  split_ifs with ha hb hc <;> rw [abs_le] <;> constructor <;> push_cast <;> linarith

/-- Rounding to one decimal place moves a value by at most 1/20. -/
theorem abs_round1_sub (q : ℚ) : |round1 q - q| ≤ 1 / 20 := by
  unfold round1
  have h := abs_roundHalfEven_sub (q * 10)
  have heq : (roundHalfEven (q * 10) : ℚ) / 10 - q
      = ((roundHalfEven (q * 10) : ℚ) - q * 10) / 10 := by ring
  rw [heq, abs_div]
  rw [show |(10 : ℚ)| = 10 by norm_num]
  rw [div_le_div_iff₀ (by norm_num) (by norm_num)]
  linarith

/-- Distribute a common division and scaling over a list sum. -/
theorem sum_map_div_mul (l : List String) (cnt : String → ℕ) (d : ℚ) :
    (l.map fun x => (cnt x : ℚ) / d * 100).sum
      = (l.map fun x => (cnt x : ℚ)).sum / d * 100 := by
  induction l with
  | nil => simp
  | cons a t ih =>
    simp only [List.map_cons, List.sum_cons, ih]
    ring

/-- Summed rounding error over a list is at most length times the
per-entry bound. -/
theorem abs_sum_sub_sum (f g : String → ℚ) (l : List String) (ε : ℚ)
    (h : ∀ x ∈ l, |f x - g x| ≤ ε) :
    |(l.map f).sum - (l.map g).sum| ≤ (l.length : ℚ) * ε := by
  induction l with
  | nil => simp
  | cons a t ih =>
    simp only [List.map_cons, List.sum_cons, List.length_cons]
    have h1 := h a (List.mem_cons_self a t)
    have h2 := ih fun x hx => h x (List.mem_cons_of_mem a hx)
    have heq : f a + (t.map f).sum - (g a + (t.map g).sum)
        = (f a - g a) + ((t.map f).sum - (t.map g).sum) := by ring
    rw [heq]
    calc |(f a - g a) + ((t.map f).sum - (t.map g).sum)|
        ≤ |f a - g a| + |(t.map f).sum - (t.map g).sum| := abs_add _ _
      _ ≤ ε + (t.length : ℚ) * ε := add_le_add h1 h2
      _ = ((t.length : ℚ) + 1) * ε := by ring
      _ = ((t.length + 1 : ℕ) : ℚ) * ε := by push_cast; ring

/-- The distinct-value counts of a list sum to its length, in ℚ. -/
theorem sum_counts_dedup (xs : List String) :
    (xs.dedup.map fun x => (xs.count x : ℚ)).sum = (xs.length : ℚ) := by
  have h1 : (xs.dedup.map fun x => (xs.count x : ℚ))
      = (xs.dedup.map fun x => xs.count x).map (fun k : ℕ => (k : ℚ)) := by
    simp [List.map_map, Function.comp]
  rw [h1, ← Nat.cast_list_sum, List.sum_map_count_dedup_eq_length]

/-- The percentage values of `valueCountsPct` sum to 100 up to the
accumulated rounding error of 1/20 per distinct label. -/
theorem valueCountsPct_sum (xs : List String) (hxs : xs ≠ []) :
    |((valueCountsPct xs).map (fun lp => lp.2)).sum - 100|
      ≤ ((valueCountsPct xs).length : ℚ) * (1 / 20) := by
  have hn : (0 : ℚ) < (xs.length : ℚ) := by
    have : 0 < xs.length := List.length_pos.2 hxs
    exact_mod_cast this
  have hmap : (valueCountsPct xs).map (fun lp => lp.2)
      = xs.dedup.map fun l => round1 ((xs.count l : ℚ) / (xs.length : ℚ) * 100) := by
    unfold valueCountsPct
    simp [List.map_map, Function.comp]
  have hexact : (xs.dedup.map fun l => (xs.count l : ℚ) / (xs.length : ℚ) * 100).sum
      = 100 := by
    rw [sum_map_div_mul xs.dedup (fun x => xs.count x) (xs.length : ℚ)]
    rw [sum_counts_dedup]
    rw [div_self (ne_of_gt hn)]
    norm_num
  have hlen : ((valueCountsPct xs).length : ℚ) = (xs.dedup.length : ℚ) := by
    unfold valueCountsPct
    simp
  rw [hmap, hlen]
  calc |(xs.dedup.map fun l => round1 ((xs.count l : ℚ) / (xs.length : ℚ) * 100)).sum - 100|
      = |(xs.dedup.map fun l => round1 ((xs.count l : ℚ) / (xs.length : ℚ) * 100)).sum
          - (xs.dedup.map fun l => (xs.count l : ℚ) / (xs.length : ℚ) * 100).sum| := by
        rw [hexact]
    _ ≤ (xs.dedup.length : ℚ) * (1 / 20) := by
        apply abs_sum_sub_sum
        intro x _
        exact abs_round1_sub _

/-- On a non-empty frame the sentiment column access succeeds. -/
theorem getColumn_sentiment (rows : List ClassificationResult) (h : rows ≠ []) :
    getColumn rows "Predicted_Sentiment" = .ok (rows.map fun r => r.sentiment) := by
  unfold getColumn
  rw [if_neg h]
  simp

/-- C1: for every review string, classify performs one sentiment
inference call, trims surrounding whitespace from the response, and the
issue field is the trimmed response of a second inference call iff the
trimmed sentiment compares case-insensitively equal to Negative; for
any other sentiment text (Positive, Neutral, or unrecognized text,
passed through as-is) the issue is the sentinel N/A and no second call
is made.  The prompt list records the inference calls performed. -/
theorem claim_C1_classify_calls (gen : GenText) (r raw : String)
    (hg : gen (prompt_sentiment r) = .ok raw) :
    (pyLower (pyStrip raw) ≠ "negative" →
      analyze_single_review gen r
        = (.ok ⟨r, pyStrip raw, "N/A"⟩, [prompt_sentiment r]))
    ∧ (∀ rawIssue, pyLower (pyStrip raw) = "negative" →
        gen (prompt_issue r) = .ok rawIssue →
        analyze_single_review gen r
          = (.ok ⟨r, pyStrip raw, pyStrip rawIssue⟩,
             [prompt_sentiment r, prompt_issue r])) :=
  analyze_spec gen r raw hg

/-- C1 witness: a concrete negative review makes both calls and takes
the trimmed issue answer. -/
theorem claim_C1_classify_calls_witness :
    genNeg (prompt_sentiment "late pickup") = .ok " Negative "
    ∧ analyze_single_review genNeg "late pickup"
        = (.ok ⟨"late pickup", "Negative", "Car Condition"⟩,
           [prompt_sentiment "late pickup", prompt_issue "late pickup"]) := by
  refine ⟨rfl, ?_⟩
  exact (claim_C1_classify_calls genNeg "late pickup" " Negative " rfl).2
    " Car Condition " (by decide) rfl

/-- C2: a successful batch run yields exactly one result per input
review, in the same relative order, each result being the
classification of its review. -/
theorem claim_C2_batch_one_per_review (gen : GenText) (reviews : List String)
    (results : List ClassificationResult)
    (h : (batchRun gen reviews).1 = .ok results) :
    results.length = reviews.length
    ∧ results.map (fun r => r.review) = reviews
    ∧ ∀ (j : Nat) (hj : j < reviews.length) (hj2 : j < results.length),
        (analyze_single_review gen (reviews.get ⟨j, hj⟩)).1
          = .ok (results.get ⟨j, hj2⟩) :=
  batchLoop_ok_spec gen reviews.length reviews 0 results h

/-- C2 witness: a concrete two-review batch produces two results in
input order. -/
theorem claim_C2_batch_one_per_review_witness :
    (batchRun genPos ["good ride", "ok"]).1
        = .ok [⟨"good ride", "Positive", "N/A"⟩, ⟨"ok", "Positive", "N/A"⟩]
    ∧ ([⟨"good ride", "Positive", "N/A"⟩, ⟨"ok", "Positive", "N/A"⟩]
        : List ClassificationResult).length = (["good ride", "ok"] : List String).length
    ∧ ([⟨"good ride", "Positive", "N/A"⟩, ⟨"ok", "Positive", "N/A"⟩]
        : List ClassificationResult).map (fun r => r.review) = ["good ride", "ok"] := by
  refine ⟨rfl, ?_, ?_⟩
  · exact (claim_C2_batch_one_per_review genPos ["good ride", "ok"]
      [⟨"good ride", "Positive", "N/A"⟩, ⟨"ok", "Positive", "N/A"⟩] rfl).1
  · exact (claim_C2_batch_one_per_review genPos ["good ride", "ok"]
      [⟨"good ride", "Positive", "N/A"⟩, ⟨"ok", "Positive", "N/A"⟩] rfl).2.1

/-- C3 (amended): for every non-empty result set the issue distribution
is computed only over the rows whose sentiment equals Negative, each
issue label share divided by the negative-subset count and rounded to
one decimal place, and the mapping is empty iff there are no Negative
rows; for the empty result set the computation instead raises KeyError
(pd.DataFrame of an empty list has no columns). -/
theorem claim_C3_issue_distribution (rows : List ClassificationResult)
    (h : rows ≠ []) :
    negative_issue_counts rows
        = .ok (valueCountsPct
            ((rows.filter fun r => r.sentiment == "Negative").map fun r => r.issue))
    ∧ (∀ lp ∈ valueCountsPct
          ((rows.filter fun r => r.sentiment == "Negative").map fun r => r.issue),
        lp.2 = round1
          ((((rows.filter fun r => r.sentiment == "Negative").map
              fun r => r.issue).count lp.1 : ℚ)
            / ((rows.filter fun r => r.sentiment == "Negative").length : ℚ) * 100))
    ∧ (valueCountsPct
          ((rows.filter fun r => r.sentiment == "Negative").map fun r => r.issue) = []
        ↔ (rows.filter fun r => r.sentiment == "Negative") = []) := by
  refine ⟨?_, ?_, ?_⟩
  · unfold negative_issue_counts
    rw [getColumn_sentiment rows h]
    rfl
  · intro lp hlp
    unfold valueCountsPct at hlp
    rcases List.mem_map.1 hlp with ⟨l, _, rfl⟩
    simp [List.length_map]
  · unfold valueCountsPct
    constructor
    · intro hm
      have h1 := List.map_eq_nil_iff.1 hm
      have h2 := (List.dedup_eq_nil _).1 h1
      exact List.map_eq_nil_iff.1 h2
    · intro hneg
      rw [hneg]
      rfl

/-- C3 counterexample: the empty result set has zero Negative entries,
yet the issue-distribution line raises KeyError instead of producing an
empty mapping. -/
theorem claim_C3_issue_distribution_counterexample :
    negative_issue_counts [] = .error (.keyError "Predicted_Sentiment")
    ∧ ∀ m, negative_issue_counts [] ≠ .ok m := by
  refine ⟨rfl, fun m hm => ?_⟩
  have h2 : (Except.error (AppError.keyError "Predicted_Sentiment")
      : Except AppError (List (String × ℚ))) = .ok m := hm
  exact Except.noConfusion h2

/-- C3 witness: a single Positive review — non-empty result set with an
empty negative subset — yields the empty issue mapping. -/
theorem claim_C3_issue_distribution_witness :
    (([⟨"good", "Positive", "N/A"⟩] : List ClassificationResult) ≠ [])
    ∧ negative_issue_counts [⟨"good", "Positive", "N/A"⟩] = .ok [] := by
  refine ⟨by decide, ?_⟩
  have h := (claim_C3_issue_distribution [⟨"good", "Positive", "N/A"⟩] (by decide)).1
  rw [h]
  rfl

/-- C4 (amended): for every non-empty result set the sentiment
distribution maps each observed sentiment label to its count divided by
the total count as a percentage rounded to one decimal place, and the
values sum to 100 up to 1/20 per label of rounding error; for the empty
result set the computation instead raises KeyError (pd.DataFrame of an
empty list has no columns) rather than yielding an empty mapping. -/
theorem claim_C4_sentiment_distribution (rows : List ClassificationResult)
    (h : rows ≠ []) :
    sentiment_counts rows = .ok (valueCountsPct (rows.map fun r => r.sentiment))
    ∧ (∀ lab, lab ∈ rows.map (fun r => r.sentiment)
        ↔ ∃ p, (lab, p) ∈ valueCountsPct (rows.map fun r => r.sentiment))
    ∧ (∀ lp ∈ valueCountsPct (rows.map fun r => r.sentiment),
        lp.2 = round1 (((rows.map fun r => r.sentiment).count lp.1 : ℚ)
          / ((rows.map fun r => r.sentiment).length : ℚ) * 100))
    ∧ |((valueCountsPct (rows.map fun r => r.sentiment)).map (fun lp => lp.2)).sum
          - 100|
        ≤ ((valueCountsPct (rows.map fun r => r.sentiment)).length : ℚ) * (1 / 20) := by
  have hxs : rows.map (fun r => r.sentiment) ≠ [] := fun hc =>
    h (List.map_eq_nil_iff.1 hc)
  refine ⟨?_, ?_, ?_, valueCountsPct_sum _ hxs⟩
  · unfold sentiment_counts
    rw [getColumn_sentiment rows h]
    rfl
  · intro lab
    unfold valueCountsPct
    constructor
    · intro hmem
      exact ⟨_, List.mem_map.2 ⟨lab, List.mem_dedup.2 hmem, rfl⟩⟩
    · rintro ⟨p, hp⟩
      rcases List.mem_map.1 hp with ⟨l, hl, heq⟩
      have : l = lab := congrArg Prod.fst heq
      subst this
      exact List.mem_dedup.1 hl
  · intro lp hlp
    unfold valueCountsPct at hlp
    rcases List.mem_map.1 hlp with ⟨l, _, rfl⟩
    rfl

/-- C4 counterexample: for the empty result set the sentiment line
raises KeyError, not an empty mapping. -/
theorem claim_C4_sentiment_distribution_counterexample :
    sentiment_counts [] = .error (.keyError "Predicted_Sentiment")
    ∧ ∀ m, sentiment_counts [] ≠ .ok m := by
  refine ⟨rfl, fun m hm => ?_⟩
  have h2 : (Except.error (AppError.keyError "Predicted_Sentiment")
      : Except AppError (List (String × ℚ))) = .ok m := hm
  exact Except.noConfusion h2

/-- C4 witness: one Positive review instantiates the non-empty case,
including the rounding-error bound. -/
theorem claim_C4_sentiment_distribution_witness :
    (([⟨"good", "Positive", "N/A"⟩] : List ClassificationResult) ≠ [])
    ∧ sentiment_counts [⟨"good", "Positive", "N/A"⟩]
        = .ok (valueCountsPct ["Positive"])
    ∧ |((valueCountsPct ["Positive"]).map (fun lp => lp.2)).sum - 100|
        ≤ ((valueCountsPct ["Positive"]).length : ℚ) * (1 / 20) := by
  have h := claim_C4_sentiment_distribution [⟨"good", "Positive", "N/A"⟩] (by decide)
  exact ⟨by decide, h.1, h.2.2.2⟩

/-- C5: if classification fails on some row after earlier rows
succeeded, the whole batch aborts with that failure: no result set is
produced, the pipeline yields no output, and the page handler exposes
nothing — the earlier classifications are discarded. -/
theorem claim_C5_abort_on_failure (gen : GenText) (today : String)
    (reviews : List String) (k : Nat) (e : AppError)
    (hk : k < reviews.length)
    (hprev : ∀ (j : Nat) (hj : j < k), ∃ cr,
      (analyze_single_review gen (reviews.get ⟨j, Nat.lt_trans hj hk⟩)).1 = .ok cr)
    (hfail : (analyze_single_review gen (reviews.get ⟨k, hk⟩)).1 = .error e) :
    (batchRun gen reviews).1 = .error e
    ∧ batchPipeline gen today reviews = .error e
    ∧ batchHandler gen today reviews = none := by
  have h1 : (batchRun gen reviews).1 = .error e :=
    batchLoop_fail_spec gen reviews.length reviews k 0 e hk hprev hfail
  have hp : batchPipeline gen today reviews = .error e := by
    unfold batchPipeline
    rcases hb : batchRun gen reviews with ⟨res, evs⟩
    have h2 : res = .error e := by
      rw [hb] at h1
      exact h1
    subst h2
    rfl
  have hh : batchHandler gen today reviews = none := by
    unfold batchHandler
    rw [hp]
    rfl
  exact ⟨h1, hp, hh⟩

/-- C5 witness: the third of five reviews fails; the batch aborts with
that error and the handler exposes nothing. -/
theorem claim_C5_abort_on_failure_witness :
    (2 < (["r1", "r2", "r3", "r4", "r5"] : List String).length)
    ∧ (batchRun genFail ["r1", "r2", "r3", "r4", "r5"]).1
        = .error (.inferenceError "boom")
    ∧ batchHandler genFail "2024-01-01" ["r1", "r2", "r3", "r4", "r5"] = none := by
  have h := claim_C5_abort_on_failure genFail "2024-01-01"
    ["r1", "r2", "r3", "r4", "r5"] 2 (.inferenceError "boom") (by decide)
    (by
      intro j hj
      interval_cases j
      · exact ⟨⟨"r1", "Positive", "N/A"⟩, rfl⟩
      · exact ⟨⟨"r2", "Positive", "N/A"⟩, rfl⟩)
    rfl
  exact ⟨by decide, h.1, h.2.2⟩

/-- C6 (amended): an empty review list does make the loop produce an
empty result list with an empty trace, but the summary stage then
raises KeyError on the column access (pd.DataFrame of an empty list has
no columns), the exception is caught by the page handler, and no report
or other artifact is produced — the pipeline does not succeed with a
zero-review document. -/
theorem claim_C6_empty_batch (gen : GenText) (today : String) :
    (batchRun gen []).1 = .ok []
    ∧ (batchRun gen []).2 = []
    ∧ batchPipeline gen today [] = .error (.keyError "Predicted_Sentiment")
    ∧ batchHandler gen today [] = none :=
  ⟨rfl, rfl, rfl, rfl⟩

/-- C6 counterexample: concretely, with a Positive-answering oracle the
empty batch errors with the missing-column KeyError and the handler
returns nothing, contradicting that report generation still succeeds. -/
theorem claim_C6_empty_batch_counterexample :
    batchPipeline genPos "2024-01-01" [] = .error (.keyError "Predicted_Sentiment")
    ∧ batchHandler genPos "2024-01-01" [] = none
    ∧ ∀ out, batchPipeline genPos "2024-01-01" [] ≠ .ok out := by
  refine ⟨rfl, rfl, fun out hout => ?_⟩
  have h2 : (Except.error (AppError.keyError "Predicted_Sentiment")
      : Except AppError BatchOutput) = .ok out := hout
  exact Except.noConfusion h2

/-- C7 (amended): prompt building substitutes the review text verbatim
for the single review-text placeholder of a template whose surrounding
text is brace-free; but for a template lacking the placeholder (and
containing no replacement field at all) it does not fail — it returns
the template unchanged. -/
theorem claim_C7_prompt_building :
    (∀ (pre suf : List Char) (value : String),
        (∀ c ∈ pre, c ≠ '\x7b' ∧ c ≠ '\x7d') →
        (∀ c ∈ suf, c ≠ '\x7b' ∧ c ≠ '\x7d') →
        pyFormat (String.mk (pre ++ '\x7b' :: ("review_text".data ++ '\x7d' :: suf)))
            "review_text" value
          = .ok (String.mk (pre ++ value.data ++ suf)))
    ∧ (∀ (t value : String), (∀ c ∈ t.data, c ≠ '\x7b' ∧ c ≠ '\x7d') →
        pyFormat t "review_text" value = .ok t) := by
  constructor
  · intro pre suf value hpre hsuf
    exact pyFormat_substitutes "review_text" value pre suf hpre hsuf
      (by decide) (by decide) (by decide)
  · intro t value ht
    exact pyFormat_noPlaceholder t "review_text" value ht

/-- C7 witness: a concrete substitution and a concrete
placeholder-free template. -/
theorem claim_C7_prompt_building_witness :
    pyFormat "Review: \x7breview_text\x7d!" "review_text" "clean car"
        = .ok "Review: clean car!"
    ∧ pyFormat "Review only." "review_text" "clean car" = .ok "Review only." := by
  constructor
  · exact claim_C7_prompt_building.1 ("Review: ".data) ("!".data) "clean car"
      (by decide) (by decide)
  · exact claim_C7_prompt_building.2 "Review only." "clean car" (by decide)

/-- C7 counterexample: a template lacking the review-text placeholder
formats without any error, returning the template unchanged — it does
not fail with a TemplateError. -/
theorem claim_C7_prompt_building_counterexample :
    pyFormat "no placeholder here" "review_text" "x" = .ok "no placeholder here"
    ∧ ∀ e, pyFormat "no placeholder here" "review_text" "x" ≠ .error e := by
  refine ⟨rfl, fun e he => ?_⟩
  have h2 : (Except.ok "no placeholder here" : Except String String) = .error e := he
  exact Except.noConfusion h2

/-- C8: aggregation is a pure, deterministic function of the result
set — it takes no oracle and no other input, so computing the
distribution statistics twice from the same result set yields identical
results; it is exactly the pair of the two counting lines. -/
theorem claim_C8_aggregate_pure (rows : List ClassificationResult) :
    aggregate rows = aggregate rows
    ∧ aggregate rows = (sentiment_counts rows, negative_issue_counts rows) :=
  ⟨rfl, rfl⟩

/-- C9: every pacing delay the loop emits is the fixed 0.5 — also on
runs that later abort; on a successful run the trace holds exactly one
sleep per item and one progress update per item carrying the completed
count and the total; and the computed results are independent of the
progress callback and of its state. -/
theorem claim_C9_pacing_and_progress (gen : GenText) (reviews : List String) :
    (∀ q, Event.sleep q ∈ (batchRun gen reviews).2 → q = 1 / 2)
    ∧ (∀ results, (batchRun gen reviews).1 = .ok results →
        (batchRun gen reviews).2.filter isSleep
            = List.replicate reviews.length (Event.sleep (1 / 2))
        ∧ (batchRun gen reviews).2.filter isProgress
            = (List.range reviews.length).map
                (fun j => Event.progress (j + 1) reviews.length))
    ∧ (∀ (σ : Type) (cb : Nat → Nat → σ → σ) (s : σ),
        (batchLoopCb gen cb reviews.length 0 s reviews).1
          = (batchRun gen reviews).1) := by
  refine ⟨?_, ?_, ?_⟩
  · intro q hq
    exact batchLoop_sleep_mem gen reviews.length reviews 0 q hq
  · intro results h
    obtain ⟨hs, hp⟩ := batchLoop_events_spec gen reviews.length reviews 0 results h
    refine ⟨hs, ?_⟩
    have hp2 : (batchRun gen reviews).2.filter isProgress
        = (List.range reviews.length).map
            (fun j => Event.progress (0 + j + 1) reviews.length) := hp
    rw [hp2]
    apply List.map_congr_left
    intro a _
    congr 1
    omega
  · intro σ cb s
    exact batchLoopCb_fst gen cb reviews.length reviews 0 s

/-- C9 witness: a concrete successful two-review run shows the two
sleeps, the two progress updates, and callback independence. -/
theorem claim_C9_pacing_and_progress_witness :
    ((batchRun genPos ["a", "b"]).2.filter isProgress
        = [Event.progress 1 2, Event.progress 2 2])
    ∧ ((batchRun genPos ["a", "b"]).2.filter isSleep
        = List.replicate 2 (Event.sleep (1 / 2)))
    ∧ (batchLoopCb genPos (fun _ _ s => s + 1) 2 0 (0 : Nat) ["a", "b"]).1
        = (batchRun genPos ["a", "b"]).1 := by
  have h := claim_C9_pacing_and_progress genPos ["a", "b"]
  obtain ⟨hs, hp⟩ := h.2.1 [⟨"a", "Positive", "N/A"⟩, ⟨"b", "Positive", "N/A"⟩] rfl
  refine ⟨?_, ?_, ?_⟩
  · rw [hp]
    rfl
  · exact hs
  · exact h.2.2 Nat (fun _ _ s => s + 1) 0

/-- C10: a failed model construction is caught and becomes None, and
with a None model the single-review analysis and the batch branch are
both skipped silently — no inference call, no result, no report, no
further error. -/
theorem claim_C10_none_model_skips (msg : String) :
    initialize_model (.error msg) = none
    ∧ (∀ review, interactiveAnalysis (initialize_model (.error msg)) review = none)
    ∧ (∀ today reviews, batchSection (initialize_model (.error msg)) today reviews = none) := by
  refine ⟨rfl, ?_, ?_⟩
  · intro review
    unfold interactiveAnalysis initialize_model
    split
    · rfl
    · rfl
  · intro today reviews
    rfl
